import Mathlib

/-!
Shallow embedding of `src/whisper_bridge.py` (the orchestration layer of the
whispragent repository): the model-name resolver, the bounded in-process model
cache, the model lifecycle operations (download / check / list / delete) and
the transcription adapter.

External collaborators (the `faster_whisper.WhisperModel` constructor,
`model.transcribe`, the huggingface-hub client and the filesystem) are opaque
in the source; here their outcomes are passed in as explicit parameters
(success flags, raised-exception messages, segment lists, directory contents),
so every Python control path that depends on them is represented.  The cache
`_model_cache` is a Python `dict`, which preserves insertion order, `del` of a
key removes it, and re-assigning an existing key keeps its position; since the
bridge stores opaque model handles, the cache is embedded as the list of its
keys in insertion order.
-/

namespace WhisperBridge

/-- MODEL_REPO_MAPPINGS from whisper_bridge.py, as an insertion-ordered
association list (the Python source uses a dict literal). -/
def MODEL_REPO_MAPPINGS : List (String × String) :=
  [("tiny", "Systran/faster-whisper-tiny"),
   ("base", "Systran/faster-whisper-base"),
   ("small", "Systran/faster-whisper-small"),
   ("medium", "Systran/faster-whisper-medium"),
   ("large", "Systran/faster-whisper-large-v3"),
   ("turbo", "mobiuslabsgmbh/faster-whisper-large-v3-turbo"),
   ("tiny.en", "Systran/faster-whisper-tiny.en"),
   ("base.en", "Systran/faster-whisper-base.en"),
   ("small.en", "Systran/faster-whisper-small.en"),
   ("medium.en", "Systran/faster-whisper-medium.en")]

/-- get_model_repo: `MODEL_REPO_MAPPINGS.get(model_name, f"Systran/faster-whisper-{model_name}")`. -/
def get_model_repo (model_name : String) : String :=
  ((MODEL_REPO_MAPPINGS.find? (fun p => p.1 == model_name)).map Prod.snd).getD
    ("Systran/faster-whisper-" ++ model_name)

/-- load_model: returns the cached handle if present; otherwise constructs a
`WhisperModel` (outcome abstracted by `loadOk`; on exception the function
returns `None` and leaves the cache untouched); on success, if the cache
already holds at least 2 entries it deletes the first key in iteration order
(the oldest inserted) before inserting the new key at the end.  The returned
`Bool` is `model is not None`; the returned list is the cache afterwards. -/
def load_model (model_name : String) (loadOk : Bool) (cache : List String) :
    Bool × List String :=
  if model_name ∈ cache then (true, cache)
  else if loadOk then
    (true, (if cache.length ≥ 2 then cache.drop 1 else cache) ++ [model_name])
  else (false, cache)

/-- runLoads: the cache produced by a sequence of `load_model` calls starting
from the empty cache; each request is (model_name, did WhisperModel construction succeed). -/
def runLoads (reqs : List (String × Bool)) : List String :=
  reqs.foldl (fun c r => (load_model r.1 r.2 c).2) []

/-- Result record of download_model (the `PROGRESS:` lines on stderr are I/O
side effects carrying no state and are not modelled). -/
structure DownloadResult where
  model : String
  downloaded : Bool
  error : Option String
  success : Bool
deriving Repr, DecidableEq

/-- Outcome of the external calls inside download_model's `try`:
`snapshot_download` followed by the verifying `WhisperModel` construction. -/
inductive DownloadOutcome
  | success
  | repoNotFound
  | failure (msg : String)
deriving Repr, DecidableEq

/-- download_model: on success it executes `_model_cache[model_name] = model`,
which appends a new key (or overwrites in place an existing one) with NO
eviction check; on `RepositoryNotFoundError` or any other exception the cache
is untouched and an error record is returned. -/
def download_model (model_name : String) (outcome : DownloadOutcome)
    (cache : List String) : DownloadResult × List String :=
  match outcome with
  | .success =>
      ({ model := model_name, downloaded := true, error := none, success := true },
       if model_name ∈ cache then cache else cache ++ [model_name])
  | .repoNotFound =>
      ({ model := model_name, downloaded := false,
         error := some ("Model repository not found: " ++ get_model_repo model_name),
         success := false }, cache)
  | .failure msg =>
      ({ model := model_name, downloaded := false, error := some msg,
         success := false }, cache)

/-- py_round_div num den: Python's `round(num / den)` for nonnegative integers,
computed exactly on the rational num/den (round half to even, Python's rule;
the float representation error of `num / den` is ignored, which is exact for
all realistic byte counts). -/
def py_round_div (num den : Nat) : Nat :=
  let q := num / den
  let r := num % den
  if 2 * r < den then q
  else if 2 * r > den then q + 1
  else if q % 2 = 0 then q else q + 1

/-- round_mb bytes: `round(bytes / (1024 * 1024))`. -/
def round_mb (bytes : Nat) : Nat := py_round_div bytes (1024 * 1024)

/-- Result record of delete_model. -/
structure DeleteResult where
  model : String
  deleted : Bool
  freed_mb : Option Nat
  error : Option String
  success : Bool
deriving Repr, DecidableEq

/-- delete_model: if the model's hub cache directory exists, it sums the file
sizes (`dirBytes`), runs `shutil.rmtree` (whose raised exception message, if
any, is `rmtreeErr`), and only then — still inside the `if` — removes the
in-process cache entry; if the directory does not exist, `freed_bytes` stays 0
and the in-process cache is never touched.  Returns the result record and the
in-process cache afterwards. -/
def delete_model (model_name : String) (cache : List String) (dirExists : Bool)
    (dirBytes : Nat) (rmtreeErr : Option String) : DeleteResult × List String :=
  if dirExists then
    match rmtreeErr with
    | none =>
        ({ model := model_name, deleted := true, freed_mb := some (round_mb dirBytes),
           error := none, success := true }, cache.erase model_name)
    | some msg =>
        ({ model := model_name, deleted := false, freed_mb := none,
           error := some msg, success := false }, cache)
  else
    ({ model := model_name, deleted := true, freed_mb := some (round_mb 0),
       error := none, success := true }, cache)

/-- ModelStatus: result record of check_model_status. -/
structure ModelStatus where
  model : String
  downloaded : Bool
  size_mb : Option Nat
  error : Option String
  success : Bool
deriving Repr, DecidableEq

/-- HubCacheView: the observations check_model_status makes of the
huggingface-hub local cache, keyed by resolved repository identifier:
whether `try_to_load_from_cache(repo, "model.bin")` finds a path, whether the
`models--org--repo` directory and its `refs/main` marker exist, and the sizes
of the regular files in its `blobs` directory (empty list if absent). -/
structure HubCacheView where
  cachedModelBin : String → Bool
  dirExists : String → Bool
  refsMainExists : String → Bool
  blobSizes : String → List Nat

/-- check_model_status: model_found via the hub lookup, else via the
directory + refs/main fallback; total size summed over the blobs directory
only when found; `size_mb` is null unless the total is positive. -/
def check_model_status (model_name : String) (fs : HubCacheView) : ModelStatus :=
  let repo := get_model_repo model_name
  let model_found := fs.cachedModelBin repo || (fs.dirExists repo && fs.refsMainExists repo)
  let total_size_bytes := if model_found then (fs.blobSizes repo).sum else 0
  let size_mb := if total_size_bytes > 0 then some (round_mb total_size_bytes) else none
  { model := model_name, downloaded := model_found, size_mb := size_mb,
    error := none, success := true }

/-- standard_models list from list_models. -/
def standard_models : List String := ["tiny", "base", "small", "medium", "large", "turbo"]

/-- english_models list from list_models. -/
def english_models : List String := ["tiny.en", "base.en", "small.en", "medium.en"]

/-- Per-model record assembled by list_models. -/
structure ModelInfo where
  model : String
  downloaded : Bool
  size_mb : Option Nat
  english_only : Bool
  success : Bool
deriving Repr, DecidableEq

/-- Top-level record returned by list_models. -/
structure ListModelsResult where
  models : List ModelInfo
  success : Bool
deriving Repr, DecidableEq

/-- list_models: one record per catalog model, standard (multilingual) models
first, then the English-only models, each via check_model_status. -/
def list_models (fs : HubCacheView) : ListModelsResult :=
  { models :=
      standard_models.map (fun m =>
        let status := check_model_status m fs
        { model := m, downloaded := status.downloaded, size_mb := status.size_mb,
          english_only := false, success := true })
      ++ english_models.map (fun m =>
        let status := check_model_status m fs
        { model := m, downloaded := status.downloaded, size_mb := status.size_mb,
          english_only := true, success := true }),
    success := true }

/-- TranscriptionResult: the JSON record returned by transcribe_audio (the
source's success record has keys `text`, `language`, `success`; the error
record has `error`, `success`; absent keys are `none`).  The spec's data model
calls the `language` field `detected_language`. -/
structure TranscriptionResult where
  text : Option String
  language : Option String
  error : Option String
  success : Bool
deriving Repr, DecidableEq

/-- Arguments transcribe_audio passes to `model.transcribe` apart from the
audio path. -/
structure TranscribeCall where
  beam_size : Nat
  language : Option String
  initial_prompt : Option String
deriving Repr, DecidableEq

/-- Outcome of the `model.transcribe` call plus the full consumption of its
lazy segment sequence: either all segment texts and the detected language, or
a raised exception's message. -/
inductive TranscribeOutcome
  | yields (segments : List String) (language : String)
  | raises (msg : String)
deriving Repr, DecidableEq

/-- beam_size selection of transcribe_audio: `["tiny", "base"]` get 1,
`["small"]` gets 3, everything else falls to the `else` branch and gets 5. -/
def beam_size (model_name : String) : Nat :=
  if model_name ∈ ["tiny", "base"] then 1
  else if model_name ∈ ["small"] then 3
  else 5

/-- Trace of one transcribe_audio invocation: the returned record, the model
cache afterwards, the arguments of the `model.transcribe` call when it was
made, and whether load_model was called at all. -/
structure TranscribeTrace where
  result : TranscriptionResult
  cache : List String
  call : Option TranscribeCall
  loadAttempted : Bool
deriving Repr, DecidableEq

/-- transcribe_audio: missing file short-circuits before any model work;
then load_model (updating the cache); a `None` model yields the load-failure
record; otherwise `model.transcribe` is invoked with the selected beam size,
the optional language and initial prompt, the segments are gathered and joined
with `" ".join(...)` then `.strip()`-ped; any exception becomes an error
record. -/
def transcribe_audio (audio_path model_name : String)
    (language initial_prompt : Option String) (fileExists loadOk : Bool)
    (outcome : TranscribeOutcome) (cache : List String) : TranscribeTrace :=
  if fileExists then
    let lr := load_model model_name loadOk cache
    if lr.1 then
      match outcome with
      | .yields segments lang =>
          { result := { text := some ((String.intercalate " " segments).trim),
                        language := some lang, error := none, success := true },
            cache := lr.2,
            call := some { beam_size := beam_size model_name, language := language,
                           initial_prompt := initial_prompt },
            loadAttempted := true }
      | .raises msg =>
          { result := { text := none, language := none, error := some msg,
                        success := false },
            cache := lr.2,
            call := some { beam_size := beam_size model_name, language := language,
                           initial_prompt := initial_prompt },
            loadAttempted := true }
    else
      { result := { text := none, language := none,
                    error := some "Failed to load Whisper model", success := false },
        cache := lr.2, call := none, loadAttempted := true }
  else
    { result := { text := none, language := none,
                  error := some ("Audio file not found: " ++ audio_path),
                  success := false },
      cache := cache, call := none, loadAttempted := false }

/-- Spec-side join (refinement target for C2): "concatenate segment texts with
a single separating space each" — written from the spec's words, to be
compared with the source's `" ".join`. -/
def spec_join : List String → String
  | [] => ""
  | [s] => s
  | s :: rest => s ++ " " ++ spec_join rest

end WhisperBridge

namespace WhisperBridge

/-! ## Helper lemmas -/

theorem spec_join_append_cons (x y : String) (l : List String) :
    spec_join ((x ++ y) :: l) = x ++ spec_join (y :: l) := by
  cases l with
  | nil => rfl
  | cons c t => simp [spec_join, String.append_assoc]

theorem intercalate_go_eq (l : List String) (acc : String) :
    String.intercalate.go acc " " l = spec_join (acc :: l) := by
  induction l generalizing acc with
  | nil => rfl
  | cons a t ih =>
      rw [show String.intercalate.go acc " " (a :: t)
            = String.intercalate.go (acc ++ " " ++ a) " " t from rfl, ih,
         spec_join_append_cons (acc ++ " ") a t]
      cases t <;> simp [spec_join]

theorem intercalate_eq_spec_join (l : List String) :
    String.intercalate " " l = spec_join l := by
  cases l with
  | nil => rfl
  | cons a t => exact intercalate_go_eq t a

theorem load_model_length_le (n : String) (ok : Bool) (c : List String)
    (h : c.length ≤ 2) : ((load_model n ok c).2).length ≤ 2 := by
  unfold load_model
  split_ifs with h1 h2 h3
  · exact h
  · simp only [List.length_append, List.length_drop, List.length_cons, List.length_nil]
    omega
  · simp only [List.length_append, List.length_cons, List.length_nil]
    omega
  · exact h

theorem load_model_nodup (n : String) (ok : Bool) (c : List String)
    (h : c.Nodup) : ((load_model n ok c).2).Nodup := by
  unfold load_model
  split_ifs with h1 h2 h3
  · exact h
  · have hd : (c.drop 1).Nodup := (List.drop_sublist 1 c).nodup h
    have hnd : n ∉ c.drop 1 := fun hm => h1 (List.mem_of_mem_drop hm)
    simp only [List.drop_one] at hd hnd
    simp [List.nodup_append, hd, hnd, h, h1]
  · simp [List.nodup_append, h, h1]
  · exact h

theorem foldl_load_inv (reqs : List (String × Bool)) (c : List String)
    (h1 : c.length ≤ 2) (h2 : c.Nodup) :
    (reqs.foldl (fun c r => (load_model r.1 r.2 c).2) c).length ≤ 2 ∧
    (reqs.foldl (fun c r => (load_model r.1 r.2 c).2) c).Nodup := by
  induction reqs generalizing c with
  | nil => exact ⟨h1, h2⟩
  | cons r t ih =>
      exact ih _ (load_model_length_le r.1 r.2 c h1) (load_model_nodup r.1 r.2 c h2)

theorem runLoads_length_le (reqs : List (String × Bool)) : (runLoads reqs).length ≤ 2 :=
  (foldl_load_inv reqs [] (by simp) (by simp)).1

theorem runLoads_nodup (reqs : List (String × Bool)) : (runLoads reqs).Nodup :=
  (foldl_load_inv reqs [] (by simp) (by simp)).2

theorem load_model_evicts_head (n : String) (ok : Bool) (c : List String)
    (hlen : c.length ≤ 2) (x : String)
    (hx : x ∈ c) (hrem : x ∉ (load_model n ok c).2) : c.head? = some x := by
  unfold load_model at hrem
  split_ifs at hrem with h1 h2 h3
  · exact absurd hx hrem
  · simp only [List.mem_append, not_or] at hrem
    rcases c with _ | ⟨a, _ | ⟨b, _ | ⟨d, t⟩⟩⟩
    · simp at hx
    · simp at h3
    · have := hrem.1
      simp at hx this
      rcases hx with rfl | rfl
      · rfl
      · exact absurd rfl this
    · simp at hlen
  · simp only [List.mem_append, not_or] at hrem
    exact absurd hx hrem.1
  · exact absurd hx hrem

/-! ## Claim theorems -/

/-- C4: after any sequence of load_model calls starting from the empty cache,
the cache never holds more than 2 entries, and whenever a further load_model
call evicts an entry x (x was present and is gone afterwards), x is the
earliest-inserted entry among those present (the head of the insertion-ordered
cache) — FIFO by insertion, not by last use. -/
theorem load_model_cache_bound_fifo (reqs : List (String × Bool)) :
    (runLoads reqs).length ≤ 2 ∧
    ∀ n ok x, x ∈ runLoads reqs → x ∉ (load_model n ok (runLoads reqs)).2 →
      (runLoads reqs).head? = some x := by
  refine ⟨runLoads_length_le reqs, fun n ok x hx hrem => ?_⟩
  exact load_model_evicts_head n ok (runLoads reqs) (runLoads_length_le reqs) x hx hrem

/-- Witness for C4: loading tiny then base fills the cache; a further load of
small evicts tiny, the earliest-inserted entry. -/
theorem load_model_cache_bound_fifo_witness :
    (runLoads [("tiny", true), ("base", true)]).length ≤ 2 ∧
    (runLoads [("tiny", true), ("base", true)]).head? = some "tiny" :=
  ⟨(load_model_cache_bound_fifo [("tiny", true), ("base", true)]).1,
   (load_model_cache_bound_fifo [("tiny", true), ("base", true)]).2
     "small" true "tiny" (by decide) (by decide)⟩

/-- Counterexample for C1: the cache reached by loading tiny then base holds
2 entries, yet download_model of a third model inserts without evicting and
leaves 3 entries, violating the claimed bound. -/
theorem download_insert_breaks_cache_bound :
    (runLoads [("tiny", true), ("base", true)]).length ≤ 2 ∧
    ¬ (((download_model "small" DownloadOutcome.success
          (runLoads [("tiny", true), ("base", true)])).2).length ≤ 2) := by
  decide

/-- C1 (amended): load_model and delete_model always preserve the bound
|cache| ≤ 2; download_model's cache-as-side-effect insert preserves it only
when the model is already cached or the cache holds at most one entry — it
performs no eviction, so a successful download of an uncached model into a
full cache grows it to 3. -/
theorem cache_bound_amended (n : String) (cache : List String)
    (h : cache.length ≤ 2) :
    (∀ ok, ((load_model n ok cache).2).length ≤ 2) ∧
    (∀ dirExists dirBytes rmtreeErr,
      ((delete_model n cache dirExists dirBytes rmtreeErr).2).length ≤ 2) ∧
    (∀ outcome, (n ∈ cache ∨ cache.length ≤ 1) →
      ((download_model n outcome cache).2).length ≤ 2) := by
  refine ⟨fun ok => load_model_length_le n ok cache h, ?_, ?_⟩
  · intro dirExists dirBytes rmtreeErr
    rcases rmtreeErr with _ | msg <;> unfold delete_model <;> split_ifs <;>
      simp only [] <;> first
        | exact le_trans (List.length_erase_le n cache) h
        | exact h
  · intro outcome hcond
    cases outcome with
    | success =>
        simp only [download_model]
        split_ifs with hmem
        · exact h
        · rcases hcond with hmem' | hlen
          · exact absurd hmem' hmem
          · simp only [List.length_append, List.length_cons, List.length_nil]
            omega
    | repoNotFound => exact h
    | failure msg => exact h

/-- Witness for C1 (amended): a concrete 2-entry cache; load and delete keep
it within bound, and a download of an already-cached model does too. -/
theorem cache_bound_amended_witness :
    ((["tiny", "base"] : List String).length ≤ 2) ∧
    ((load_model "base" true ["tiny", "base"]).2).length ≤ 2 ∧
    ((delete_model "base" ["tiny", "base"] true 1000 none).2).length ≤ 2 ∧
    ("base" ∈ (["tiny", "base"] : List String) ∨
      (["tiny", "base"] : List String).length ≤ 1) ∧
    ((download_model "base" DownloadOutcome.success ["tiny", "base"]).2).length ≤ 2 :=
  ⟨by decide,
   (cache_bound_amended "base" ["tiny", "base"] (by decide)).1 true,
   (cache_bound_amended "base" ["tiny", "base"] (by decide)).2.1 true 1000 none,
   by decide,
   (cache_bound_amended "base" ["tiny", "base"] (by decide)).2.2
     DownloadOutcome.success (by decide)⟩

end WhisperBridge

namespace WhisperBridge

/-- C2: for every successful transcription the result record carries
success = true, the language reported by the underlying transcription call
(the spec's detected_language), and a text equal to the segment texts
concatenated with a single separating space each (spec_join, written from the
spec's words) and then stripped of leading/trailing whitespace. -/
theorem transcribe_success_record (audio_path model_name : String)
    (language initial_prompt : Option String) (loadOk : Bool)
    (segments : List String) (lang : String) (cache : List String)
    (hload : (load_model model_name loadOk cache).1 = true) :
    (transcribe_audio audio_path model_name language initial_prompt true loadOk
        (TranscribeOutcome.yields segments lang) cache).result =
      { text := some ((spec_join segments).trim), language := some lang,
        error := none, success := true } := by
  simp [transcribe_audio, hload, intercalate_eq_spec_join]

/-- Witness for C2: a concrete successful transcription of two segments. -/
theorem transcribe_success_record_witness :
    (load_model "base" true []).1 = true ∧
    (transcribe_audio "a.wav" "base" none none true true
        (TranscribeOutcome.yields ["Hello", "world"] "en") []).result =
      { text := some ((spec_join ["Hello", "world"]).trim), language := some "en",
        error := none, success := true } :=
  ⟨by decide, transcribe_success_record "a.wav" "base" none none true
      ["Hello", "world"] "en" [] (by decide)⟩

/-- C3: transcribe_audio with model tiny or base passes beam size 1 to the
underlying transcription call, with small passes 3, and with medium, large or
turbo passes 5. -/
theorem beam_size_by_tier (audio_path : String)
    (language initial_prompt : Option String) (loadOk : Bool)
    (outcome : TranscribeOutcome) (cache : List String)
    (model_name : String) (bs : Nat)
    (hm : (model_name, bs) ∈
      [("tiny", 1), ("base", 1), ("small", 3), ("medium", 5), ("large", 5), ("turbo", 5)])
    (hload : (load_model model_name loadOk cache).1 = true) :
    ((transcribe_audio audio_path model_name language initial_prompt true loadOk
        outcome cache).call).map TranscribeCall.beam_size = some bs := by
  fin_cases hm <;> cases outcome <;> simp [transcribe_audio, hload, beam_size]

/-- Witness for C3: the small model gets beam size 3. -/
theorem beam_size_by_tier_witness :
    ((("small" : String), (3 : Nat)) ∈
      [("tiny", 1), ("base", 1), ("small", 3), ("medium", 5), ("large", 5), ("turbo", 5)]) ∧
    (load_model "small" true []).1 = true ∧
    ((transcribe_audio "a.wav" "small" none none true true
        (TranscribeOutcome.yields [] "en") []).call).map TranscribeCall.beam_size = some 3 :=
  ⟨by decide, by decide,
   beam_size_by_tier "a.wav" none none true (TranscribeOutcome.yields [] "en") []
     "small" 3 (by decide) (by decide)⟩

/-- C10: for every model identifier outside {tiny, base, small} — the
English-only variants and unknown identifiers included — transcribe_audio
passes beam size 5: the branch is a catch-all on the exact identifier string. -/
theorem beam_size_catch_all (audio_path : String)
    (language initial_prompt : Option String) (loadOk : Bool)
    (outcome : TranscribeOutcome) (cache : List String) (model_name : String)
    (hm : model_name ∉ (["tiny", "base", "small"] : List String))
    (hload : (load_model model_name loadOk cache).1 = true) :
    ((transcribe_audio audio_path model_name language initial_prompt true loadOk
        outcome cache).call).map TranscribeCall.beam_size = some 5 := by
  simp only [List.mem_cons, List.not_mem_nil, or_false, not_or] at hm
  have hb : beam_size model_name = 5 := by
    simp [beam_size, List.mem_cons, hm.1, hm.2.1, hm.2.2]
  cases outcome <;> simp [transcribe_audio, hload, hb]

/-- Witness for C10: the English-only medium.en variant gets beam size 5,
even when the underlying call raises. -/
theorem beam_size_catch_all_witness :
    (("medium.en" : String) ∉ (["tiny", "base", "small"] : List String)) ∧
    (load_model "medium.en" true []).1 = true ∧
    ((transcribe_audio "a.wav" "medium.en" none none true true
        (TranscribeOutcome.raises "boom") []).call).map TranscribeCall.beam_size = some 5 :=
  ⟨by decide, by decide,
   beam_size_catch_all "a.wav" none none true (TranscribeOutcome.raises "boom") []
     "medium.en" (by decide) (by decide)⟩

/-- C7: when the audio file does not exist, transcribe_audio returns the
file-not-found error record with the exact message, success false, the cache
unchanged, no model.transcribe call and load_model never invoked. -/
theorem transcribe_missing_file (audio_path model_name : String)
    (language initial_prompt : Option String) (loadOk : Bool)
    (outcome : TranscribeOutcome) (cache : List String) :
    transcribe_audio audio_path model_name language initial_prompt false loadOk
        outcome cache =
      { result := { text := none, language := none,
                    error := some ("Audio file not found: " ++ audio_path),
                    success := false },
        cache := cache, call := none, loadAttempted := false } := rfl

/-- C9: delete_model on a model whose hub cache directory does not exist
returns the successful no-op record with freed_mb 0, for every in-process
cache state and every rmtree outcome parameter. -/
theorem delete_model_missing_dir_noop_success (model_name : String)
    (cache : List String) (dirBytes : Nat) (rmtreeErr : Option String) :
    (delete_model model_name cache false dirBytes rmtreeErr).1 =
      { model := model_name, deleted := true, freed_mb := some 0,
        error := none, success := true } := rfl

/-- Counterexample for C5: with base present in the in-process cache but its
hub directory absent, delete_model reports a successful deletion yet the
cache entry for base survives. -/
theorem delete_model_missing_dir_keeps_cache_entry :
    ((delete_model "base" ["base"] false 0 none).1).success = true ∧
    ((delete_model "base" ["base"] false 0 none).1).deleted = true ∧
    "base" ∈ (delete_model "base" ["base"] false 0 none).2 := by
  decide

/-- C5 (amended): when delete_model succeeds and the model's hub cache
directory existed, the model is absent from the (duplicate-free) in-process
cache afterwards; when the directory did not exist, the call still succeeds
but the in-process cache is returned unchanged, so an entry for the model
survives. -/
theorem delete_model_removes_entry_amended (model_name : String)
    (cache : List String) (hnd : cache.Nodup) (dirBytes : Nat) :
    (∀ rmtreeErr,
      ((delete_model model_name cache true dirBytes rmtreeErr).1).success = true →
        model_name ∉ (delete_model model_name cache true dirBytes rmtreeErr).2) ∧
    (((delete_model model_name cache false dirBytes none).1).success = true ∧
      (delete_model model_name cache false dirBytes none).2 = cache) := by
  refine ⟨fun rmtreeErr hs => ?_, rfl, rfl⟩
  rcases rmtreeErr with _ | msg
  · simpa [delete_model] using hnd.not_mem_erase
  · simp [delete_model] at hs

/-- Witness for C5 (amended): deleting base from a two-entry cache with the
directory present removes it; with the directory absent the cache survives. -/
theorem delete_model_removes_entry_amended_witness :
    ((["tiny", "base"] : List String).Nodup) ∧
    ((delete_model "base" ["tiny", "base"] true 42 none).1).success = true ∧
    "base" ∉ (delete_model "base" ["tiny", "base"] true 42 none).2 ∧
    ((delete_model "base" ["tiny", "base"] false 42 none).1).success = true ∧
    (delete_model "base" ["tiny", "base"] false 42 none).2 = ["tiny", "base"] :=
  ⟨by decide, by decide,
   (delete_model_removes_entry_amended "base" ["tiny", "base"] (by decide) 42).1
     none (by decide),
   (delete_model_removes_entry_amended "base" ["tiny", "base"] (by decide) 42).2.1,
   (delete_model_removes_entry_amended "base" ["tiny", "base"] (by decide) 42).2.2⟩

/-- C6: get_model_repo is a total pure function: each of the ten known
identifiers maps to its hardcoded repository string, and every identifier
outside the table falls back to the fixed namespace prefix concatenated with
the identifier. -/
theorem get_model_repo_total :
    (get_model_repo "tiny" = "Systran/faster-whisper-tiny" ∧
     get_model_repo "base" = "Systran/faster-whisper-base" ∧
     get_model_repo "small" = "Systran/faster-whisper-small" ∧
     get_model_repo "medium" = "Systran/faster-whisper-medium" ∧
     get_model_repo "large" = "Systran/faster-whisper-large-v3" ∧
     get_model_repo "turbo" = "mobiuslabsgmbh/faster-whisper-large-v3-turbo" ∧
     get_model_repo "tiny.en" = "Systran/faster-whisper-tiny.en" ∧
     get_model_repo "base.en" = "Systran/faster-whisper-base.en" ∧
     get_model_repo "small.en" = "Systran/faster-whisper-small.en" ∧
     get_model_repo "medium.en" = "Systran/faster-whisper-medium.en") ∧
    ∀ x : String, x ∉ MODEL_REPO_MAPPINGS.map Prod.fst →
      get_model_repo x = "Systran/faster-whisper-" ++ x := by
  refine ⟨by decide, fun x hx => ?_⟩
  have hnone : MODEL_REPO_MAPPINGS.find? (fun p => p.1 == x) = none := by
    rw [List.find?_eq_none]
    intro p hp hpx
    exact hx (List.mem_map.mpr ⟨p, hp, eq_of_beq hpx⟩)
  simp [get_model_repo, hnone]

/-- Witness for C6: the unknown identifier large-v2 resolves by the fallback
naming convention. -/
theorem get_model_repo_total_witness :
    (("large-v2" : String) ∉ MODEL_REPO_MAPPINGS.map Prod.fst) ∧
    get_model_repo "large-v2" = "Systran/faster-whisper-large-v2" :=
  ⟨by decide, get_model_repo_total.2 "large-v2" (by decide)⟩

/-- C8: list_models always returns exactly 10 records — the 6 multilingual
models first, then the 4 English-only models, in the fixed catalog order —
with english_only false exactly on the multilingual members and true exactly
on the English-only members, every record marked success. -/
theorem list_models_catalog (fs : HubCacheView) :
    (list_models fs).models.map (fun r => (r.model, r.english_only)) =
      [("tiny", false), ("base", false), ("small", false), ("medium", false),
       ("large", false), ("turbo", false),
       ("tiny.en", true), ("base.en", true), ("small.en", true), ("medium.en", true)] ∧
    (list_models fs).models.length = 10 ∧
    (list_models fs).models.all (fun r => r.success) = true ∧
    (list_models fs).success = true :=
  ⟨rfl, rfl, rfl, rfl⟩

end WhisperBridge
